import Mathlib

/-!
Shallow embedding of the HW3 RPC service (`src/HW3/api.py`): the declarative
field-constraint model, the `Validator` engine, the auth guard and the two
method handlers, together with proofs about the claims of the specification.
-/

set_option linter.unusedVariables false

namespace HW3

/-! ### Python value model -/

/-- A model of the Python values that flow through the validator and the
handlers: `None`, booleans, integers, strings, lists and (string-keyed, JSON
style) dicts.  We never need recursion into nested values, only truthiness
and top-level lookups. -/
inductive PyVal where
  | none
  | bool (b : Bool)
  | int (n : Int)
  | str (s : String)
  | list (elems : List PyVal)
  | dict (entries : List (String × PyVal))

/-- A Python dict with string keys, as an association list that keeps
insertion order (the order `json.loads` and dict literals produce). -/
abbrev Data := List (String × PyVal)

/-- Python truthiness (`bool(v)`): `None`, `False`, `0`, `""`, `[]`, `{}` are
falsy, everything else truthy. -/
def pyTruthy : PyVal → Bool
  | .none => false
  | .bool b => b
  | .int n => decide (n ≠ 0)
  | .str s => decide (s ≠ "")
  | .list elems => !elems.isEmpty
  | .dict entries => !entries.isEmpty

/-- First binding of a key in a dict (Python dict keys are unique, so first
match is the binding). -/
def dataLookup : Data → String → Option PyVal
  | [], _ => Option.none
  | (k, v) :: rest, key => if k = key then some v else dataLookup rest key

/-- Python `obj.get(name)`: the bound value, or `None` when the key is
absent. -/
def pyGet (d : Data) (k : String) : PyVal :=
  (dataLookup d k).getD PyVal.none

/-- Python `name in obj`: whether the key is present at all. -/
def hasKey (d : Data) (k : String) : Bool :=
  (dataLookup d k).isSome

/-- Python `d[k] = v` as done by `dict.update` with a fresh single-key dict:
replace the binding in place if the key exists, else append it. -/
def dataSet : Data → String → PyVal → Data
  | [], k, v => [(k, v)]
  | (k', v') :: rest, k, v =>
      if k' = k then (k, v) :: rest else (k', v') :: dataSet rest k v

/-- Python `v == "lit"` where the right side is a string literal: equality
holds only for an equal string, any other type compares unequal. -/
def pyEqStr : PyVal → String → Bool
  | .str s, t => decide (s = t)
  | _, _ => false

/-- The exceptions the modelled code can raise. -/
inductive PyErr where
  | keyError
  | typeError
  | attributeError
  | indexError
deriving DecidableEq, Repr

/-! ### Field constraints and schemas -/

/-- One constraint attached to a field by `BaseField.__init__`: the kwarg
name (`"required"` or `"nullable"`) and its boolean value (`api.py` line
43-47, class `Field`). -/
structure Field where
  field_type : String
  value : Bool
deriving DecidableEq, Repr

/-- A schema is the list of `(attribute name, constraints)` pairs in class
declaration order; the constraints keep the kwargs order of the field's
declaration (`BaseField.__init__` stores them by insertion order). -/
abbrev Schema := List (String × List Field)

/-- Shorthand for a `required=b` constraint. -/
def rq (b : Bool) : Field := ⟨"required", b⟩

/-- Shorthand for a `nullable=b` constraint. -/
def nl (b : Bool) : Field := ⟨"nullable", b⟩

/-- `class MethodRequest` (api.py lines 150-155), fields in declaration
order, each with its kwargs in declaration order. -/
def MethodRequest_schema : Schema :=
  [("account", [rq false, nl true]),
   ("login", [rq true, nl true]),
   ("token", [rq true, nl true]),
   ("arguments", [rq true, nl true]),
   ("method", [rq true, nl false])]

/-- `class OnlineScoreRequest` (api.py lines 141-147). -/
def OnlineScoreRequest_schema : Schema :=
  [("first_name", [rq false, nl true]),
   ("last_name", [rq false, nl true]),
   ("email", [rq false, nl true]),
   ("phone", [rq false, nl true]),
   ("birthday", [rq false, nl true]),
   ("gender", [rq false, nl true])]

/-- `class ClientsInterestsRequest` (api.py lines 136-138): `client_ids`
declares only `required=True`, `date` declares `required=False,
nullable=True`. -/
def ClientsInterestsRequest_schema : Schema :=
  [("client_ids", [rq true]),
   ("date", [rq false, nl true])]

/-! ### inspect.getmembers ordering

`Validator.validate` discovers the schema's fields with
`inspect.getmembers(self.schema)`, which returns the members sorted by
attribute name (Python's `sorted`, i.e. code-point lexicographic order on
the names), NOT in class declaration order.  We model the sort exactly. -/

/-- Code-point lexicographic `<=` on character lists, the order Python uses
to compare strings. -/
def charListLe : List Char → List Char → Bool
  | [], _ => true
  | _ :: _, [] => false
  | a :: as, b :: bs =>
      if a.toNat < b.toNat then true
      else if b.toNat < a.toNat then false
      else charListLe as bs

/-- Python string `<=`, code-point lexicographic. -/
def strLe (a b : String) : Bool := charListLe a.data b.data

/-- Ordering of schema members by attribute name, as `sorted` compares the
`(name, value)` pairs returned by `inspect.getmembers` (names are distinct,
so the name decides). -/
def memberLe (a b : String × List Field) : Prop := strLe a.1 b.1 = true

instance : DecidableRel memberLe := fun a b =>
  inferInstanceAs (Decidable (strLe a.1 b.1 = true))

/-- The alphabetical reordering `inspect.getmembers` applies to the schema's
fields (a stable sort by name, as Python's `sorted`). -/
def getmembers_sort (schema : Schema) : Schema :=
  List.insertionSort memberLe schema

/-! ### The Validator engine (api.py lines 67-101) -/

/-- The mutable state of a `Validator` instance: the `errors` and
`filled_fields` lists, both appended to in visit order. -/
structure ValidationResult where
  errors : List String
  filled_fields : List String
deriving DecidableEq, Repr

/-- One iteration of the constraint loop in `Validator.__validate`
(api.py lines 78-88): `t` is the truthiness of `obj.get(name)`. -/
def validate_constraint (name : String) (t : Bool) (st : ValidationResult)
    (c : Field) : ValidationResult :=
  if c.field_type = "nullable" then
    if !c.value then
      if !t then
        { st with errors := st.errors ++ ["Field " ++ name ++ " should be filled"] }
      else st
    else
      { st with filled_fields := st.filled_fields ++ [name] }
  else if c.field_type = "required" then
    if c.value then
      if !t then
        { st with errors := st.errors ++ ["Field " ++ name ++ " should be exists"] }
      else st
    else st
  else st

/-- `Validator.__validate(field, name, obj)` (api.py lines 75-88): read
`value = obj.get(name)` once, then fold the constraint loop over the
field's constraints in declaration order. -/
def validate_field (obj : Data) (st : ValidationResult)
    (nf : String × List Field) : ValidationResult :=
  nf.2.foldl (validate_constraint nf.1 (pyTruthy (pyGet obj nf.1))) st

/-- `Validator.validate` (api.py lines 93-97): visit the schema's fields in
`inspect.getmembers` order (sorted by name) and run `__validate` on each,
starting from empty `errors` and `filled_fields`. -/
def validate (schema : Schema) (obj : Data) : ValidationResult :=
  (getmembers_sort schema).foldl (validate_field obj) ⟨[], []⟩

/-- The `is_valid` property (api.py lines 99-101): `not self.errors`. -/
def is_valid (schema : Schema) (obj : Data) : Bool :=
  (validate schema obj).errors.isEmpty

/-! ### Constants (api.py lines 16-32) -/

def MEANING_OF_LIFE : Int := 42
def SALT : String := "Otus"
def ADMIN_LOGIN : String := "admin"
def ADMIN_SALT : String := "42"
def OK : Nat := 200
def BAD_REQUEST : Nat := 400
def FORBIDDEN : Nat := 403
def NOT_FOUND : Nat := 404
def INVALID_REQUEST : Nat := 422
def INTERNAL_ERROR : Nat := 500

/-- The `ERRORS` table (api.py lines 26-32), as `code ↦ message` with the
`"Unknown Error"` default of `ERRORS.get(code, "Unknown Error")`. -/
def ERRORS_get (code : Nat) : String :=
  if code = BAD_REQUEST then "Bad Request"
  else if code = FORBIDDEN then "Forbidden"
  else if code = NOT_FOUND then "Not Found"
  else if code = INVALID_REQUEST then "Invalid Request"
  else if code = INTERNAL_ERROR then "Internal Server Error"
  else "Unknown Error"

/-- Membership in the `ERRORS` table (`code not in ERRORS`, api.py 272). -/
def ERRORS_mem (code : Nat) : Bool :=
  code = BAD_REQUEST || code = FORBIDDEN || code = NOT_FOUND ||
  code = INVALID_REQUEST || code = INTERNAL_ERROR

/-! ### The auth guard (api.py lines 162-169)

`check_auth` concatenates Python `str`s and hands the result directly to
`hashlib.sha512`.  The file is Python-3-only (it imports `http.server`), and
in Python 3 `hashlib.sha512` raises `TypeError` on a `str` argument —
the code never calls `.encode()`.  We model that library behaviour
exactly: the digest of a `str` is a `TypeError`. -/

/-- The envelope attributes `check_auth` reads (`request.account`,
`request.login`, `request.token`). -/
structure Envelope where
  account : String
  login : String
  token : String

/-- Python 3 `hashlib.sha512(s).hexdigest()` applied to a `str` argument:
always raises `TypeError: Unicode-objects must be encoded before hashing`.
(The hash of a `bytes` argument never occurs in `check_auth`, whose
arguments are always `str` concatenations.) -/
def hashlib_sha512_hexdigest_of_str (s : String) : Except PyErr String :=
  .error .typeError

/-- `check_auth(request)` (api.py lines 162-169), parameterised by the
current wall-clock hour string `datetime.datetime.now().strftime("%Y%m%d%H")`. -/
def check_auth (now_hour : String) (request : Envelope) : Except PyErr Bool := do
  let digest ←
    if request.login = ADMIN_LOGIN then
      hashlib_sha512_hexdigest_of_str (now_hour ++ ADMIN_SALT)
    else
      hashlib_sha512_hexdigest_of_str (request.account ++ request.login ++ SALT)
  return decide (digest = request.token)

/-! ### Store collaborator and handlers (api.py lines 172-229)

`get_score` and `get_interests` live in `HW3/scoring.py`, an external
collaborator ("opaque store contract" per the spec), so the handlers are
parameterised by a `Store` of opaque functions; every invocation of those
functions is also recorded in a call trace, so that "the store is never
called" is a statement about the trace. -/

/-- The external scoring functions. -/
structure Store where
  get_score : PyVal → PyVal → PyVal → PyVal → PyVal → PyVal → PyVal
  get_interests : PyVal → PyVal

/-- One recorded invocation of the store. -/
inductive StoreCall where
  | getScore (phone email birthday gender first_name last_name : PyVal)
  | getInterests (cid : PyVal)

/-- The response dict a handler or the HTTP adapter builds: the finitely
many shapes occurring in `api.py`. -/
inductive Resp where
  | emptyDict
  | errMsg (msg : String)
  | errList (msgs : List String)
  | score (v : PyVal)
  | interests (pairs : List (PyVal × PyVal))

/-- A handler's `(response, code, ctx)` triple, plus the trace of store
invocations it performed. -/
structure HandlerOut where
  response : Resp
  code : Nat
  ctx : Data
  calls : List StoreCall

/-- The dict `{"body": request, "headers": self.headers}` that `do_POST`
passes to the dispatched handler (api.py line 262). -/
structure Request where
  body : Data
  headers : PyVal

/-- The wrapper dict itself as a Python dict, as it is handed to
`Validator(request, OnlineScoreRequest)` in `score_handler`. -/
def Request.toData (r : Request) : Data :=
  [("body", PyVal.dict r.body), ("headers", r.headers)]

/-- `for idx in ids` / `len(ids)`: Python iteration over a value — lists
yield their elements, strings their one-character substrings, dicts their
keys; other values raise `TypeError`. -/
def pyIter : PyVal → Except PyErr (List PyVal)
  | .list elems => .ok elems
  | .str s => .ok (s.data.map fun c => .str (String.singleton c))
  | .dict entries => .ok (entries.map fun kv => .str kv.1)
  | _ => .error .typeError

/-- The `enough_information` expression of `score_handler` (api.py line
208), computed from the raw arguments by presence + truthiness. -/
def enough_information (arguments : Data) : Bool :=
  (pyTruthy (pyGet arguments "email") && pyTruthy (pyGet arguments "phone")) ||
  (pyTruthy (pyGet arguments "first_name") && pyTruthy (pyGet arguments "last_name")) ||
  (pyTruthy (pyGet arguments "gender") && pyTruthy (pyGet arguments "birthday"))

/-- `score_handler(request, ctx, store)` (api.py lines 199-229).  Subscript
and attribute accesses that Python would fault on are `Except` errors. -/
def score_handler (request : Request) (ctx : Data) (store : Store) :
    Except PyErr HandlerOut :=
  match dataLookup request.body "arguments" with
  | Option.none => .error .keyError
  | some argsVal =>
    match argsVal with
    | .dict arguments =>
      let email := pyGet arguments "email"
      let phone := pyGet arguments "phone"
      let first_name := pyGet arguments "first_name"
      let last_name := pyGet arguments "last_name"
      let gender := pyGet arguments "gender"
      let birthday := pyGet arguments "birthday"
      if enough_information arguments then
        let v := validate OnlineScoreRequest_schema request.toData
        let ctx := dataSet ctx "has" (.list (v.filled_fields.map .str))
        if v.errors.isEmpty then
          match dataLookup request.body "login" with
          | Option.none => .error .keyError
          | some loginVal =>
            if pyEqStr loginVal ADMIN_LOGIN then
              .ok ⟨.score (.int MEANING_OF_LIFE), OK, ctx, []⟩
            else
              .ok ⟨.score (store.get_score phone email birthday gender first_name last_name),
                   OK, ctx,
                   [.getScore phone email birthday gender first_name last_name]⟩
        else
          match v.errors with
          | [] => .error .indexError
          | e :: _ => .ok ⟨.errMsg e, INVALID_REQUEST, ctx, []⟩
      else
        .ok ⟨.errMsg "You should to send necessary parameters", INVALID_REQUEST, ctx, []⟩
    | _ => .error .attributeError

/-- `clients_interests(request, ctx, store)` (api.py lines 172-186). -/
def clients_interests (request : Request) (ctx : Data) (store : Store) :
    Except PyErr HandlerOut :=
  match dataLookup request.body "arguments" with
  | Option.none => .error .keyError
  | some argsVal =>
    match argsVal with
    | .dict arguments =>
      let v := validate ClientsInterestsRequest_schema arguments
      if v.errors.isEmpty then
        match dataLookup arguments "client_ids" with
        | Option.none => .error .keyError
        | some idsVal =>
          match pyIter idsVal with
          | .error e => .error e
          | .ok ids =>
            .ok ⟨.interests (ids.map fun idx => (idx, store.get_interests idx)),
                 OK,
                 dataSet ctx "nclients" (.int ids.length),
                 ids.map StoreCall.getInterests⟩
      else
        match v.errors with
        | [] => .error .indexError
        | e :: _ => .ok ⟨.errMsg e, INVALID_REQUEST, ctx, []⟩
    | _ => .error .attributeError

/-- `method_handler(request, ctx, store)` (api.py lines 189-196): look the
method name up in the `middleware` table; a value that is not a key of the
table raises `KeyError` (an unhashable value raises `TypeError`). -/
def method_handler (request : Request) (ctx : Data) (store : Store) :
    Except PyErr HandlerOut :=
  match dataLookup request.body "method" with
  | Option.none => .error .keyError
  | some m =>
    match m with
    | .list _ => .error .typeError
    | .dict _ => .error .typeError
    | _ =>
      if pyEqStr m "clients_interests" then clients_interests request ctx store
      else if pyEqStr m "online_score" then score_handler request ctx store
      else .error .keyError

/-! ### The HTTP adapter after JSON parsing (api.py lines 241-278) -/

/-- The final JSON body `r` written by `do_POST`: either
`{"response": ..., "code": ...}` or `{"error": ..., "code": ...}`. -/
inductive FinalBody where
  | success (response : Resp) (code : Nat)
  | failure (error : Resp) (code : Nat)

/-- Truthiness of the `response` value at the point `response or
ERRORS.get(code, "Unknown Error")` is evaluated (api.py line 275). -/
def respTruthy : Resp → Bool
  | .emptyDict => false
  | .errMsg _ => true
  | .errList msgs => !msgs.isEmpty
  | .score _ => true
  | .interests pairs => !pairs.isEmpty

/-- The `r`-building tail of `do_POST` (api.py lines 272-275). -/
def build_r (response : Resp) (code : Nat) : FinalBody :=
  if !ERRORS_mem code then .success response code
  else .failure (if respTruthy response then response else .errMsg (ERRORS_get code)) code

/-- The body of `do_POST` from the point the request body has been parsed
into a JSON object (api.py lines 242-278): validate against
`MethodRequest`, on failure answer with the full error list and
`INVALID_REQUEST`; on success dispatch through the router (path already
stripped of slashes), mapping a handler exception to `INTERNAL_ERROR` and an
unknown path to `NOT_FOUND`. -/
def do_POST_core (request : Data) (path : String) (headers : PyVal)
    (ctx : Data) (store : Store) : FinalBody × Data :=
  let v := validate MethodRequest_schema request
  if v.errors.isEmpty then
    if !request.isEmpty then
      if path = "method" then
        match method_handler ⟨request, headers⟩ ctx store with
        | .ok out => (build_r out.response out.code, out.ctx)
        | .error _ => (build_r .emptyDict INTERNAL_ERROR, ctx)
      else (build_r .emptyDict NOT_FOUND, ctx)
    else (build_r .emptyDict OK, ctx)
  else (build_r (.errList v.errors) INVALID_REQUEST, ctx)

/-! ### Characterisation of the validator

The validator only ever appends to `errors` and `filled_fields`, so its
result decomposes into per-field, per-constraint contributions.  The
following definitions and lemmas make that decomposition explicit; they are
the workhorse for the claims about `Validator`. -/

/-- The error message of the `required` branch. -/
def existsMsg (name : String) : String := "Field " ++ name ++ " should be exists"

/-- The error message of the non-nullable branch. -/
def filledMsg (name : String) : String := "Field " ++ name ++ " should be filled"

/-- Errors contributed by a single constraint for a field named `name`
whose looked-up value has truthiness `t`. -/
def constraint_errors (name : String) (t : Bool) (c : Field) : List String :=
  if c.field_type = "nullable" then
    if !c.value then (if !t then [filledMsg name] else []) else []
  else if c.field_type = "required" then
    if c.value then (if !t then [existsMsg name] else []) else []
  else []

/-- `filled_fields` entries contributed by a single constraint. -/
def constraint_filled (name : String) (c : Field) : List String :=
  if c.field_type = "nullable" then
    (if !c.value then [] else [name])
  else []

/-- Errors contributed by one schema field on input `data`. -/
def field_errors (data : Data) (nf : String × List Field) : List String :=
  (nf.2.map (constraint_errors nf.1 (pyTruthy (pyGet data nf.1)))).flatten

/-- `filled_fields` entries contributed by one schema field (independent of
the data, because the nullable-true branch ignores the value). -/
def field_filled (nf : String × List Field) : List String :=
  (nf.2.map (constraint_filled nf.1)).flatten

theorem validate_constraint_eq (name : String) (t : Bool) (st : ValidationResult)
    (c : Field) :
    validate_constraint name t st c =
      ⟨st.errors ++ constraint_errors name t c,
       st.filled_fields ++ constraint_filled name c⟩ := by
  unfold validate_constraint constraint_errors constraint_filled
  split_ifs <;> simp [filledMsg, existsMsg]

theorem foldl_validate_constraint (name : String) (t : Bool) (cs : List Field)
    (st : ValidationResult) :
    cs.foldl (validate_constraint name t) st =
      ⟨st.errors ++ (cs.map (constraint_errors name t)).flatten,
       st.filled_fields ++ (cs.map (constraint_filled name)).flatten⟩ := by
  induction cs generalizing st with
  | nil => simp
  | cons c cs ih =>
      simp [List.foldl_cons, validate_constraint_eq, ih, List.append_assoc]

theorem validate_field_eq (obj : Data) (st : ValidationResult)
    (nf : String × List Field) :
    validate_field obj st nf =
      ⟨st.errors ++ field_errors obj nf,
       st.filled_fields ++ field_filled nf⟩ := by
  unfold validate_field field_errors field_filled
  exact foldl_validate_constraint _ _ _ _

theorem foldl_validate_field (obj : Data) (l : Schema) (st : ValidationResult) :
    l.foldl (validate_field obj) st =
      ⟨st.errors ++ (l.map (field_errors obj)).flatten,
       st.filled_fields ++ (l.map field_filled).flatten⟩ := by
  induction l generalizing st with
  | nil => simp
  | cons nf l ih =>
      simp [List.foldl_cons, validate_field_eq, ih, List.append_assoc]

/-- The full error list: the concatenation of the per-field error lists,
fields taken in `inspect.getmembers` (alphabetical) order. -/
theorem validate_errors_eq (schema : Schema) (obj : Data) :
    (validate schema obj).errors =
      ((getmembers_sort schema).map (field_errors obj)).flatten := by
  unfold validate
  rw [foldl_validate_field]
  simp

/-- The full `filled_fields` list, fields in alphabetical order. -/
theorem validate_filled_eq (schema : Schema) (obj : Data) :
    (validate schema obj).filled_fields =
      ((getmembers_sort schema).map field_filled).flatten := by
  unfold validate
  rw [foldl_validate_field]
  simp

theorem mem_getmembers_sort {schema : Schema} {nf : String × List Field} :
    nf ∈ getmembers_sort schema ↔ nf ∈ schema := by
  unfold getmembers_sort
  exact List.mem_insertionSort memberLe

/-- Membership in the produced errors, reduced to a schema field whose
contribution contains the message. -/
theorem mem_validate_errors {schema : Schema} {obj : Data} {msg : String} :
    msg ∈ (validate schema obj).errors ↔
      ∃ nf ∈ schema, msg ∈ field_errors obj nf := by
  rw [validate_errors_eq]
  simp only [List.mem_flatten, List.mem_map]
  constructor
  · rintro ⟨l, ⟨nf, hnf, rfl⟩, hmsg⟩
    exact ⟨nf, mem_getmembers_sort.mp hnf, hmsg⟩
  · rintro ⟨nf, hnf, hmsg⟩
    exact ⟨field_errors obj nf, ⟨nf, mem_getmembers_sort.mpr hnf, rfl⟩, hmsg⟩

/-- Membership in `filled_fields`, likewise. -/
theorem mem_validate_filled {schema : Schema} {obj : Data} {n : String} :
    n ∈ (validate schema obj).filled_fields ↔
      ∃ nf ∈ schema, n ∈ field_filled nf := by
  rw [validate_filled_eq]
  simp only [List.mem_flatten, List.mem_map]
  constructor
  · rintro ⟨l, ⟨nf, hnf, rfl⟩, hn⟩
    exact ⟨nf, mem_getmembers_sort.mp hnf, hn⟩
  · rintro ⟨nf, hnf, hn⟩
    exact ⟨field_filled nf, ⟨nf, mem_getmembers_sort.mpr hnf, rfl⟩, hn⟩

theorem mem_constraint_errors {name : String} {t : Bool} {c : Field} {msg : String} :
    msg ∈ constraint_errors name t c ↔
      t = false ∧
        ((c = nl false ∧ msg = filledMsg name) ∨
         (c = rq true ∧ msg = existsMsg name)) := by
  obtain ⟨ft, b⟩ := c
  unfold constraint_errors
  simp only [nl, rq, Field.mk.injEq]
  split_ifs with h1 h2 h3 h4 h5 <;> simp_all

theorem mem_constraint_filled {name n : String} {c : Field} :
    n ∈ constraint_filled name c ↔ n = name ∧ c = nl true := by
  obtain ⟨ft, b⟩ := c
  unfold constraint_filled
  simp only [nl, Field.mk.injEq]
  split_ifs with h1 h2 <;> simp_all

theorem mem_field_errors {obj : Data} {nf : String × List Field} {msg : String} :
    msg ∈ field_errors obj nf ↔
      ∃ c ∈ nf.2, msg ∈ constraint_errors nf.1 (pyTruthy (pyGet obj nf.1)) c := by
  unfold field_errors
  simp only [List.mem_flatten, List.mem_map]
  constructor
  · rintro ⟨l, ⟨c, hc, rfl⟩, hmsg⟩
    exact ⟨c, hc, hmsg⟩
  · rintro ⟨c, hc, hmsg⟩
    exact ⟨_, ⟨c, hc, rfl⟩, hmsg⟩

theorem mem_field_filled {nf : String × List Field} {n : String} :
    n ∈ field_filled nf ↔ n = nf.1 ∧ nl true ∈ nf.2 := by
  unfold field_filled
  simp only [List.mem_flatten, List.mem_map]
  constructor
  · rintro ⟨l, ⟨c, hc, rfl⟩, hn⟩
    obtain ⟨rfl, rfl⟩ := mem_constraint_filled.mp hn
    exact ⟨rfl, hc⟩
  · rintro ⟨rfl, hc⟩
    exact ⟨_, ⟨nl true, hc, rfl⟩, mem_constraint_filled.mpr ⟨rfl, rfl⟩⟩

/-! ### Disambiguation of the two message formats -/

theorem existsMsg_inj {a b : String} (h : existsMsg a = existsMsg b) : a = b := by
  unfold existsMsg at h
  have hd : ("Field ".data ++ a.data) ++ " should be exists".data =
      ("Field ".data ++ b.data) ++ " should be exists".data := by
    have := congrArg String.data h
    simpa using this
  have h2 := List.append_inj' hd rfl
  have h3 := List.append_cancel_left h2.1
  exact String.ext h3

theorem filledMsg_inj {a b : String} (h : filledMsg a = filledMsg b) : a = b := by
  unfold filledMsg at h
  have hd : ("Field ".data ++ a.data) ++ " should be filled".data =
      ("Field ".data ++ b.data) ++ " should be filled".data := by
    have := congrArg String.data h
    simpa using this
  have h2 := List.append_inj' hd rfl
  have h3 := List.append_cancel_left h2.1
  exact String.ext h3

theorem filledMsg_ne_existsMsg (a b : String) : filledMsg a ≠ existsMsg b := by
  intro h
  unfold filledMsg existsMsg at h
  have hd : ("Field ".data ++ a.data) ++ " should be filled".data =
      ("Field ".data ++ b.data) ++ " should be exists".data := by
    have := congrArg String.data h
    simpa using this
  have h2 := List.append_inj' hd rfl
  exact absurd h2.2 (by decide)

/-! ### The getmembers order is a total preorder -/

theorem charListLe_total (a b : List Char) :
    charListLe a b = true ∨ charListLe b a = true := by
  induction a generalizing b with
  | nil => left; rfl
  | cons x xs ih =>
    cases b with
    | nil => right; rfl
    | cons y ys =>
      by_cases h1 : x.toNat < y.toNat
      · left; simp [charListLe, h1]
      · by_cases h2 : y.toNat < x.toNat
        · right; simp [charListLe, h2]
        · rcases ih ys with h | h
          · left; simp [charListLe, h1, h2, h]
          · right; simp [charListLe, h1, h2, h]

theorem charListLe_trans : ∀ {a b c : List Char},
    charListLe a b = true → charListLe b c = true → charListLe a c = true := by
  intro a
  induction a with
  | nil => intro b c _ _; rfl
  | cons x xs ih =>
    intro b c h1 h2
    cases b with
    | nil => exact absurd h1 (by simp [charListLe])
    | cons y ys =>
      cases c with
      | nil => exact absurd h2 (by simp [charListLe])
      | cons z zs =>
        simp only [charListLe] at h1 h2 ⊢
        by_cases hxy : x.toNat < y.toNat
        · by_cases hyz : y.toNat < z.toNat
          · rw [if_pos (by omega)]
          · simp only [if_neg hyz] at h2
            by_cases hzy : z.toNat < y.toNat
            · simp [hzy] at h2
            · rw [if_pos (by omega)]
        · simp only [if_neg hxy] at h1
          by_cases hyx : y.toNat < x.toNat
          · simp [hyx] at h1
          · simp only [if_neg hyx] at h1
            by_cases hyz : y.toNat < z.toNat
            · rw [if_pos (by omega)]
            · simp only [if_neg hyz] at h2
              by_cases hzy : z.toNat < y.toNat
              · simp [hzy] at h2
              · simp only [if_neg hzy] at h2
                rw [if_neg (by omega), if_neg (by omega)]
                exact ih h1 h2

instance : IsTotal (String × List Field) memberLe :=
  ⟨fun a b => charListLe_total a.1.data b.1.data⟩

instance : IsTrans (String × List Field) memberLe :=
  ⟨fun _ _ _ h1 h2 => charListLe_trans h1 h2⟩

/-! ### Auxiliary facts -/

/-- In a schema whose field names are distinct, a name determines its
constraint list. -/
theorem keys_nodup_eq {l : Schema} {a : String} {b c : List Field}
    (hnd : (l.map Prod.fst).Nodup) (hb : (a, b) ∈ l) (hc : (a, c) ∈ l) :
    b = c := by
  induction l with
  | nil => cases hb
  | cons hd tl ih =>
    simp only [List.map_cons, List.nodup_cons] at hnd
    rcases List.mem_cons.mp hb with h | hb'
    · rcases List.mem_cons.mp hc with h2 | hc'
      · rw [← h] at h2
        exact ((Prod.ext_iff.mp h2).2).symm
      · exfalso
        apply hnd.1
        rw [← h]
        simpa using List.mem_map_of_mem Prod.fst hc'
    · rcases List.mem_cons.mp hc with h2 | hc'
      · exfalso
        apply hnd.1
        rw [← h2]
        simpa using List.mem_map_of_mem Prod.fst hb'
      · exact ih hnd.2 hb' hc'

/-- Looking up a key just set by `dict.update`. -/
theorem dataLookup_dataSet (d : Data) (k : String) (v : PyVal) :
    dataLookup (dataSet d k v) k = some v := by
  induction d with
  | nil => simp [dataSet, dataLookup]
  | cons kv rest ih =>
    obtain ⟨k', v'⟩ := kv
    unfold dataSet
    by_cases h : k' = k
    · simp [h, dataLookup]
    · simp [h, dataLookup, ih]

/-- The `OnlineScoreRequest` schema can never produce an error: all six
fields declare `required=False, nullable=True` and neither branch of
`__validate` appends an error for those values. -/
theorem OnlineScore_errors_nil (d : Data) :
    (validate OnlineScoreRequest_schema d).errors = [] := by
  rw [validate_errors_eq]; rfl

/-- The `OnlineScoreRequest` validator marks all six fields as filled for
every input, in `inspect.getmembers` (alphabetical) order. -/
theorem OnlineScore_filled (d : Data) :
    (validate OnlineScoreRequest_schema d).filled_fields =
      ["birthday", "email", "first_name", "gender", "last_name", "phone"] := by
  rw [validate_filled_eq]; rfl

/-- What `score_handler` does once the arguments dict is found, the
enough-information test passes and the body has a `login` binding: the
(always valid) validation is run, `ctx["has"]` is set, and the response is
the admin sentinel or the store's score. -/
theorem score_handler_valid (request : Request) (ctx : Data) (store : Store)
    (args : Data) (loginVal : PyVal)
    (hargs : dataLookup request.body "arguments" = some (PyVal.dict args))
    (hei : enough_information args = true)
    (hlogin : dataLookup request.body "login" = some loginVal) :
    score_handler request ctx store =
      .ok ⟨(if pyEqStr loginVal ADMIN_LOGIN then
              Resp.score (.int MEANING_OF_LIFE)
            else
              Resp.score (store.get_score (pyGet args "phone") (pyGet args "email")
                (pyGet args "birthday") (pyGet args "gender")
                (pyGet args "first_name") (pyGet args "last_name"))),
           OK,
           dataSet ctx "has"
             (.list ((validate OnlineScoreRequest_schema request.toData).filled_fields.map .str)),
           (if pyEqStr loginVal ADMIN_LOGIN then []
            else [.getScore (pyGet args "phone") (pyGet args "email")
                    (pyGet args "birthday") (pyGet args "gender")
                    (pyGet args "first_name") (pyGet args "last_name")])⟩ := by
  unfold score_handler
  rw [hargs]
  simp only [hei, if_true, OnlineScore_errors_nil, List.isEmpty_nil, hlogin]
  by_cases h : pyEqStr loginVal ADMIN_LOGIN <;> simp [h]

/-- When the body has no `login` key, the valid branch of `score_handler`
raises `KeyError`. -/
theorem score_handler_no_login (request : Request) (ctx : Data) (store : Store)
    (args : Data)
    (hargs : dataLookup request.body "arguments" = some (PyVal.dict args))
    (hei : enough_information args = true)
    (hlogin : dataLookup request.body "login" = Option.none) :
    score_handler request ctx store = .error .keyError := by
  unfold score_handler
  rw [hargs]
  simp only [hei, if_true, OnlineScore_errors_nil, List.isEmpty_nil, hlogin]

/-- A store stub used to instantiate witnesses. -/
def storeStub : Store :=
  ⟨fun _ _ _ _ _ _ => PyVal.int 0, fun _ => PyVal.list []⟩

/-! ### C1 -/

/-- C1, counterexample: the claim says the `required=True` error is appended
exactly when the name is not a key of the data at all, regardless of the
bound value.  But for `{"login": ""}` the key `login` IS present, bound to
the falsy `""`, and the validator still appends `"Field login should be
exists"`: the `required` branch tests `not obj.get(name)` (falsiness), not
key membership. -/
theorem C1_counterexample :
    hasKey [("login", PyVal.str "")] "login" = true ∧
    existsMsg "login" ∈
      (validate MethodRequest_schema [("login", PyVal.str "")]).errors := by
  constructor
  · rfl
  · decide

/-- C1, amended: for a field declaring `required = True`, the validator
appends `"Field {name} should be exists"` exactly when `data.get(name)` is
falsy — absent, or present with a falsy value; in particular whenever the
field is absent, the error is reported and `is_valid` is false. -/
theorem C1_required_error_iff (schema : Schema) (data : Data) (name : String)
    (cs : List Field) (hmem : (name, cs) ∈ schema) (hreq : rq true ∈ cs) :
    (existsMsg name ∈ (validate schema data).errors ↔
       pyTruthy (pyGet data name) = false) ∧
    (hasKey data name = false →
       existsMsg name ∈ (validate schema data).errors ∧
       is_valid schema data = false) := by
  have hmain : existsMsg name ∈ (validate schema data).errors ↔
      pyTruthy (pyGet data name) = false := by
    constructor
    · intro h
      obtain ⟨nf, hnf, hfe⟩ := mem_validate_errors.mp h
      obtain ⟨c, hc, hce⟩ := mem_field_errors.mp hfe
      obtain ⟨ht, hcase⟩ := mem_constraint_errors.mp hce
      rcases hcase with ⟨rfl, hmsg⟩ | ⟨rfl, hmsg⟩
      · exact absurd hmsg.symm (filledMsg_ne_existsMsg _ _)
      · rw [existsMsg_inj hmsg]
        exact ht
    · intro ht
      exact mem_validate_errors.mpr ⟨(name, cs), hmem,
        mem_field_errors.mpr
          ⟨rq true, hreq, mem_constraint_errors.mpr ⟨ht, Or.inr ⟨rfl, rfl⟩⟩⟩⟩
  refine ⟨hmain, fun habs => ?_⟩
  have ht : pyTruthy (pyGet data name) = false := by
    unfold hasKey at habs
    unfold pyGet
    cases hdl : dataLookup data name with
    | none => rfl
    | some v => rw [hdl] at habs; simp at habs
  refine ⟨hmain.mpr ht, ?_⟩
  have hne := List.ne_nil_of_mem (hmain.mpr ht)
  unfold is_valid
  cases herr : (validate schema data).errors with
  | nil => exact absurd herr hne
  | cons e es => rfl

theorem C1_required_error_iff_witness :
    (existsMsg "login" ∈ (validate MethodRequest_schema []).errors ↔
       pyTruthy (pyGet [] "login") = false) ∧
    (hasKey ([] : Data) "login" = false →
       existsMsg "login" ∈ (validate MethodRequest_schema []).errors ∧
       is_valid MethodRequest_schema [] = false) :=
  C1_required_error_iff MethodRequest_schema [] "login" [rq true, nl true]
    (by decide) (by decide)

/-! ### C2 -/

/-- C2, counterexample: the claim says a `nullable=True` field is recorded
in `filled_fields` if and only if it is present with a truthy value.  But
for the empty data mapping, `email` (a `nullable=True` field of
`OnlineScoreRequest`) is absent and still recorded: the `nullable=True`
branch of `__validate` appends the name without looking at the value. -/
theorem C2_counterexample :
    hasKey ([] : Data) "email" = false ∧
    ("email", [rq false, nl true]) ∈ OnlineScoreRequest_schema ∧
    "email" ∈ (validate OnlineScoreRequest_schema []).filled_fields := by
  refine ⟨rfl, by decide, by decide⟩

/-- C2, amended: a field declaring `nullable = True` is appended to
`filled_fields` unconditionally — whether or not it is present or truthy —
and the `nullable=True` constraint never contributes an error (so absence
is indeed not an error by itself). -/
theorem C2_nullable_filled (schema : Schema) (data : Data) (name : String)
    (cs : List Field) (hmem : (name, cs) ∈ schema) (hc : nl true ∈ cs) :
    name ∈ (validate schema data).filled_fields ∧
    ∀ t : Bool, constraint_errors name t (nl true) = [] := by
  refine ⟨?_, fun t => rfl⟩
  exact mem_validate_filled.mpr ⟨(name, cs), hmem, mem_field_filled.mpr ⟨rfl, hc⟩⟩

theorem C2_nullable_filled_witness :
    "email" ∈ (validate OnlineScoreRequest_schema []).filled_fields ∧
    ∀ t : Bool, constraint_errors "email" t (nl true) = [] :=
  C2_nullable_filled OnlineScoreRequest_schema [] "email" [rq false, nl true]
    (by decide) (by decide)

/-! ### C3 -/

/-- C3, counterexample: the claim says a `nullable=False` field that is
present and truthy is appended to `filled_fields`.  But `method`
(`required=True, nullable=False` in `MethodRequest`), bound to the truthy
`"x"`, is not recorded: the non-nullable branch appends nothing on
success, only `nullable=True` fields are ever recorded as filled. -/
theorem C3_counterexample :
    ("method", [rq true, nl false]) ∈ MethodRequest_schema ∧
    pyTruthy (pyGet [("method", PyVal.str "x")] "method") = true ∧
    "method" ∉
      (validate MethodRequest_schema [("method", PyVal.str "x")]).filled_fields := by
  refine ⟨by decide, rfl, by decide⟩

/-- C3, amended: for a field declaring `nullable = False` (and not also
`nullable = True`, which a kwargs declaration cannot express twice): the
validator appends `"Field {name} should be filled"` exactly when the
field's value is absent or falsy — so when it is present and truthy no such
error is appended — and in the falsy case `is_valid` is false; moreover the
field's name is never appended to `filled_fields`, truthy or not (only
`nullable=True` fields are recorded as filled). -/
theorem C3_nonnullable (schema : Schema) (data : Data) (name : String)
    (cs : List Field) (hmem : (name, cs) ∈ schema) (hc : nl false ∈ cs)
    (hnotrue : nl true ∉ cs) (hnd : (schema.map Prod.fst).Nodup) :
    (filledMsg name ∈ (validate schema data).errors ↔
       pyTruthy (pyGet data name) = false) ∧
    (pyTruthy (pyGet data name) = false → is_valid schema data = false) ∧
    name ∉ (validate schema data).filled_fields := by
  have hmain : filledMsg name ∈ (validate schema data).errors ↔
      pyTruthy (pyGet data name) = false := by
    constructor
    · intro h
      obtain ⟨nf, hnf, hfe⟩ := mem_validate_errors.mp h
      obtain ⟨c, hcc, hce⟩ := mem_field_errors.mp hfe
      obtain ⟨ht, hcase⟩ := mem_constraint_errors.mp hce
      rcases hcase with ⟨rfl, hmsg⟩ | ⟨rfl, hmsg⟩
      · rw [filledMsg_inj hmsg]
        exact ht
      · exact absurd hmsg (filledMsg_ne_existsMsg _ _)
    · intro ht
      exact mem_validate_errors.mpr ⟨(name, cs), hmem,
        mem_field_errors.mpr
          ⟨nl false, hc, mem_constraint_errors.mpr ⟨ht, Or.inl ⟨rfl, rfl⟩⟩⟩⟩
  refine ⟨hmain, fun ht => ?_, ?_⟩
  · have hne := List.ne_nil_of_mem (hmain.mpr ht)
    unfold is_valid
    cases herr : (validate schema data).errors with
    | nil => exact absurd herr hne
    | cons e es => rfl
  · intro habs
    obtain ⟨nf, hnf, hf⟩ := mem_validate_filled.mp habs
    obtain ⟨n', cs'⟩ := nf
    obtain ⟨heq, hnl⟩ := mem_field_filled.mp hf
    subst heq
    rw [keys_nodup_eq hnd hnf hmem] at hnl
    exact hnotrue hnl

theorem C3_nonnullable_witness :
    (filledMsg "method" ∈ (validate MethodRequest_schema []).errors ↔
       pyTruthy (pyGet [] "method") = false) ∧
    (pyTruthy (pyGet [] "method") = false →
       is_valid MethodRequest_schema [] = false) ∧
    "method" ∉ (validate MethodRequest_schema []).filled_fields :=
  C3_nonnullable MethodRequest_schema [] "method" [rq true, nl false]
    (by decide) (by decide) (by decide) (by decide)

/-! ### C4 -/

/-- C4, counterexample: the claim says errors come in schema declaration
order, so the first error belongs to the earliest-declared failing field.
On the empty mapping, `login` is the earliest-declared failing field of
`MethodRequest` (declared second, before `token`, `arguments`, `method`),
yet the first error reported is the one for `arguments`:
`inspect.getmembers` visits the fields sorted by name, not in declaration
order. -/
theorem C4_counterexample :
    MethodRequest_schema.map Prod.fst =
      ["account", "login", "token", "arguments", "method"] ∧
    existsMsg "login" ∈ (validate MethodRequest_schema []).errors ∧
    (validate MethodRequest_schema []).errors.head? =
      some (existsMsg "arguments") := by
  refine ⟨rfl, by decide, by decide⟩

/-- C4, amended: the validator visits the fields sorted alphabetically by
field name (`inspect.getmembers` sorts members), deterministically: the
error list is the concatenation of the per-field error lists taken over a
permutation of the schema that is sorted by name, so the first error is
that of the alphabetically earliest failing field, not the earliest
declared one. -/
theorem C4_errors_alphabetical (schema : Schema) (data : Data) :
    (validate schema data).errors =
      ((getmembers_sort schema).map (field_errors data)).flatten ∧
    (getmembers_sort schema).Perm schema ∧
    List.Pairwise memberLe (getmembers_sort schema) := by
  refine ⟨validate_errors_eq schema data, List.perm_insertionSort memberLe schema, ?_⟩
  exact List.sorted_insertionSort memberLe schema

/-! ### C5 -/

/-- C5: the claim describes `check_auth` as returning the string comparison
of a hex SHA-512 digest with `request.token`.  The code concatenates
Python `str`s and passes the result straight to `hashlib.sha512` with no
`.encode()`; in Python 3 (this file imports `http.server`, so it is
Python-3-only) that raises `TypeError` before any comparison happens, for
every envelope, admin or not.  This theorem evaluates the modelled code:
every call raises. -/
theorem C5_check_auth_raises (now_hour : String) (request : Envelope) :
    check_auth now_hour request = .error .typeError := by
  unfold check_auth hashlib_sha512_hexdigest_of_str
  split_ifs <;> rfl

/-! ### C6 -/

/-- C6: an `online_score` request whose raw arguments fail the
enough-information test gets the "necessary parameters" error with status
`INVALID_REQUEST` (422); validation is skipped (the context is returned
unchanged, no `has` entry is recorded) and the store is never called (the
call trace is empty). -/
theorem C6_insufficient (request : Request) (ctx : Data) (store : Store)
    (args : Data)
    (hargs : dataLookup request.body "arguments" = some (PyVal.dict args))
    (hnei : enough_information args = false) :
    score_handler request ctx store =
      .ok ⟨.errMsg "You should to send necessary parameters",
           INVALID_REQUEST, ctx, []⟩ := by
  unfold score_handler
  rw [hargs]
  simp [hnei]

theorem C6_insufficient_witness :
    score_handler ⟨[("arguments", PyVal.dict [])], PyVal.none⟩ [] storeStub =
      .ok ⟨.errMsg "You should to send necessary parameters",
           INVALID_REQUEST, [], []⟩ :=
  C6_insufficient ⟨[("arguments", PyVal.dict [])], PyVal.none⟩ [] storeStub []
    rfl rfl

/-! ### C7 -/

/-- C7: an `online_score` request that passes the enough-information test
and whose arguments pass schema validation (they always do, the schema is
all-optional): if the body's `login` equals `"admin"` the response is the
sentinel score 42 and the store is never invoked (empty call trace);
otherwise the response is exactly
`get_score(store, phone, email, birthday, gender, first_name, last_name)`
on the raw argument values; the status is `OK` (200) in both cases. -/
theorem C7_admin_sentinel_or_store (request : Request) (ctx : Data)
    (store : Store) (args : Data) (loginVal : PyVal)
    (hargs : dataLookup request.body "arguments" = some (PyVal.dict args))
    (hlogin : dataLookup request.body "login" = some loginVal)
    (hei : enough_information args = true)
    (hvalid : (validate OnlineScoreRequest_schema request.toData).errors = []) :
    (pyEqStr loginVal ADMIN_LOGIN = true →
       score_handler request ctx store =
         .ok ⟨.score (.int MEANING_OF_LIFE), OK,
              dataSet ctx "has"
                (.list ((validate OnlineScoreRequest_schema
                    request.toData).filled_fields.map .str)),
              []⟩) ∧
    (pyEqStr loginVal ADMIN_LOGIN = false →
       score_handler request ctx store =
         .ok ⟨.score (store.get_score (pyGet args "phone") (pyGet args "email")
                (pyGet args "birthday") (pyGet args "gender")
                (pyGet args "first_name") (pyGet args "last_name")), OK,
              dataSet ctx "has"
                (.list ((validate OnlineScoreRequest_schema
                    request.toData).filled_fields.map .str)),
              [.getScore (pyGet args "phone") (pyGet args "email")
                 (pyGet args "birthday") (pyGet args "gender")
                 (pyGet args "first_name") (pyGet args "last_name")]⟩) := by
  have h := score_handler_valid request ctx store args loginVal hargs hei hlogin
  constructor
  · intro hadm
    rw [h, hadm]
    simp
  · intro hadm
    rw [h, hadm]
    simp

theorem C7_admin_sentinel_or_store_witness :
    score_handler
        ⟨[("arguments",
            PyVal.dict [("phone", PyVal.str "7"), ("email", PyVal.str "a@b")]),
          ("login", PyVal.str "admin")], PyVal.none⟩ [] storeStub =
      .ok ⟨.score (.int MEANING_OF_LIFE), OK,
           [("has", PyVal.list [.str "birthday", .str "email", .str "first_name",
              .str "gender", .str "last_name", .str "phone"])],
           []⟩ :=
  (C7_admin_sentinel_or_store
      ⟨[("arguments",
          PyVal.dict [("phone", PyVal.str "7"), ("email", PyVal.str "a@b")]),
        ("login", PyVal.str "admin")], PyVal.none⟩ [] storeStub
      [("phone", PyVal.str "7"), ("email", PyVal.str "a@b")]
      (PyVal.str "admin") rfl rfl rfl (OnlineScore_errors_nil _)).1 rfl

/-! ### C8 -/

/-- C8: a `clients_interests` request whose arguments pass validation
against `ClientsInterestsRequest` and whose `client_ids` is a list calls
`get_interests` on every id (the call trace is exactly one `getInterests`
per id, in order), answers with the id → interests mapping, sets
`ctx["nclients"]` to the number of ids and status `OK`; on invalid
arguments it answers with the first validation error and
`INVALID_REQUEST`. -/
theorem C8_clients_interests (request : Request) (ctx : Data) (store : Store)
    (args : Data)
    (hargs : dataLookup request.body "arguments" = some (PyVal.dict args)) :
    ((validate ClientsInterestsRequest_schema args).errors = [] →
       ∀ ids : List PyVal,
         dataLookup args "client_ids" = some (PyVal.list ids) →
         clients_interests request ctx store =
           .ok ⟨.interests (ids.map fun idx => (idx, store.get_interests idx)),
                OK,
                dataSet ctx "nclients" (.int ids.length),
                ids.map StoreCall.getInterests⟩) ∧
    (∀ e es, (validate ClientsInterestsRequest_schema args).errors = e :: es →
       clients_interests request ctx store =
         .ok ⟨.errMsg e, INVALID_REQUEST, ctx, []⟩) := by
  constructor
  · intro hvalid ids hids
    unfold clients_interests
    rw [hargs]
    simp [hvalid, hids, pyIter]
  · intro e es herr
    unfold clients_interests
    rw [hargs]
    simp [herr]

theorem C8_clients_interests_witness :
    (clients_interests
        ⟨[("arguments",
            PyVal.dict [("client_ids", PyVal.list [PyVal.str "1", PyVal.str "2"])])],
          PyVal.none⟩ [] storeStub =
      .ok ⟨.interests [(PyVal.str "1", PyVal.list []), (PyVal.str "2", PyVal.list [])],
           OK, [("nclients", PyVal.int 2)],
           [.getInterests (PyVal.str "1"), .getInterests (PyVal.str "2")]⟩) ∧
    (clients_interests ⟨[("arguments", PyVal.dict [])], PyVal.none⟩ [] storeStub =
      .ok ⟨.errMsg "Field client_ids should be exists", INVALID_REQUEST, [], []⟩) :=
  ⟨(C8_clients_interests
      ⟨[("arguments",
          PyVal.dict [("client_ids", PyVal.list [PyVal.str "1", PyVal.str "2"])])],
        PyVal.none⟩ [] storeStub
      [("client_ids", PyVal.list [PyVal.str "1", PyVal.str "2"])] rfl).1
      rfl [PyVal.str "1", PyVal.str "2"] rfl,
   (C8_clients_interests ⟨[("arguments", PyVal.dict [])], PyVal.none⟩ [] storeStub
      [] rfl).2 "Field client_ids should be exists" [] rfl⟩

/-! ### C9 -/

/-- C9: every schema-validation failure is surfaced with status 422
(`INVALID_REQUEST`), asymmetrically: when the envelope fails validation the
HTTP adapter's body is the FULL ordered error list, while a method's
argument-validation failure surfaces only the FIRST error message.  (The
two argument validations are `clients_interests` — second conjunct — and
`online_score`, whose all-optional schema can never fail — third
conjunct, making the asymmetry vacuously true there.) -/
theorem C9_422_and_asymmetry :
    (∀ (request : Data) (path : String) (headers : PyVal) (ctx : Data)
       (store : Store),
       (validate MethodRequest_schema request).errors ≠ [] →
       do_POST_core request path headers ctx store =
         (.failure (.errList (validate MethodRequest_schema request).errors)
            INVALID_REQUEST, ctx)) ∧
    (∀ (request : Request) (ctx : Data) (store : Store) (args : Data)
       (e : String) (es : List String),
       dataLookup request.body "arguments" = some (PyVal.dict args) →
       (validate ClientsInterestsRequest_schema args).errors = e :: es →
       clients_interests request ctx store =
         .ok ⟨.errMsg e, INVALID_REQUEST, ctx, []⟩) ∧
    (∀ obj : Data, (validate OnlineScoreRequest_schema obj).errors = []) := by
  refine ⟨?_, ?_, OnlineScore_errors_nil⟩
  · intro request path headers ctx store hne
    obtain ⟨e, es, herr⟩ :
        ∃ e es, (validate MethodRequest_schema request).errors = e :: es := by
      cases h : (validate MethodRequest_schema request).errors with
      | nil => exact absurd h hne
      | cons e es => exact ⟨e, es, rfl⟩
    simp only [do_POST_core]
    rw [herr]
    rfl
  · intro request ctx store args e es hargs herr
    unfold clients_interests
    rw [hargs]
    simp [herr]

theorem C9_422_and_asymmetry_witness :
    do_POST_core [] "method" PyVal.none [] storeStub =
      (.failure (.errList ["Field arguments should be exists",
          "Field login should be exists", "Field method should be exists",
          "Field method should be filled", "Field token should be exists"])
        INVALID_REQUEST, []) ∧
    clients_interests ⟨[("arguments", PyVal.dict [])], PyVal.none⟩ [] storeStub =
      .ok ⟨.errMsg "Field client_ids should be exists", INVALID_REQUEST, [], []⟩ ∧
    (validate OnlineScoreRequest_schema []).errors = [] :=
  ⟨C9_422_and_asymmetry.1 [] "method" PyVal.none [] storeStub (by decide),
   C9_422_and_asymmetry.2.1 ⟨[("arguments", PyVal.dict [])], PyVal.none⟩ []
     storeStub [] "Field client_ids should be exists" [] rfl rfl,
   C9_422_and_asymmetry.2.2 []⟩

/-! ### C10 -/

/-- C10: the `OnlineScoreRequest` schema's six all-optional fields make its
validation infallible: for every input mapping the error list is empty,
`is_valid` is true, and `filled_fields` is all six field names (in
`getmembers` order) regardless of which arguments were sent; consequently,
whenever `score_handler` reaches validation (arguments dict found, enough
information), it never takes the invalid branch: it either raises
`KeyError` on a body without `login`, or returns status `OK` with
`ctx["has"]` holding all six names. -/
theorem C10_online_score_always_valid (data : Data) (request : Request)
    (ctx : Data) (store : Store) (args : Data)
    (hargs : dataLookup request.body "arguments" = some (PyVal.dict args))
    (hei : enough_information args = true) :
    (validate OnlineScoreRequest_schema data).errors = [] ∧
    is_valid OnlineScoreRequest_schema data = true ∧
    (validate OnlineScoreRequest_schema data).filled_fields =
      ["birthday", "email", "first_name", "gender", "last_name", "phone"] ∧
    (score_handler request ctx store = .error .keyError ∨
     ∃ out : HandlerOut, score_handler request ctx store = .ok out ∧
       out.code = OK ∧
       dataLookup out.ctx "has" =
         some (.list [.str "birthday", .str "email", .str "first_name",
                      .str "gender", .str "last_name", .str "phone"])) := by
  refine ⟨OnlineScore_errors_nil data, ?_, OnlineScore_filled data, ?_⟩
  · unfold is_valid
    rw [OnlineScore_errors_nil]
    rfl
  · cases hl : dataLookup request.body "login" with
    | none => exact Or.inl (score_handler_no_login request ctx store args hargs hei hl)
    | some loginVal =>
      refine Or.inr
        ⟨_, score_handler_valid request ctx store args loginVal hargs hei hl, rfl, ?_⟩
      show dataLookup (dataSet ctx "has" _) "has" = _
      rw [dataLookup_dataSet, OnlineScore_filled]
      rfl

theorem C10_online_score_always_valid_witness :
    (validate OnlineScoreRequest_schema []).errors = [] ∧
    is_valid OnlineScoreRequest_schema [] = true ∧
    (validate OnlineScoreRequest_schema []).filled_fields =
      ["birthday", "email", "first_name", "gender", "last_name", "phone"] ∧
    (score_handler
        ⟨[("arguments",
            PyVal.dict [("phone", PyVal.str "7"), ("email", PyVal.str "a@b")]),
          ("login", PyVal.str "admin")], PyVal.none⟩ [] storeStub =
          .error .keyError ∨
     ∃ out : HandlerOut,
       score_handler
          ⟨[("arguments",
              PyVal.dict [("phone", PyVal.str "7"), ("email", PyVal.str "a@b")]),
            ("login", PyVal.str "admin")], PyVal.none⟩ [] storeStub = .ok out ∧
       out.code = OK ∧
       dataLookup out.ctx "has" =
         some (.list [.str "birthday", .str "email", .str "first_name",
                      .str "gender", .str "last_name", .str "phone"])) :=
  C10_online_score_always_valid []
    ⟨[("arguments",
        PyVal.dict [("phone", PyVal.str "7"), ("email", PyVal.str "a@b")]),
      ("login", PyVal.str "admin")], PyVal.none⟩ [] storeStub
    [("phone", PyVal.str "7"), ("email", PyVal.str "a@b")] rfl rfl

end HW3
